import Mathlib

/-!
Verification of the BasicTasks_PreProcessingTools repository against its
natural-language specification.  The definitions below are shallow embeddings
of the repository's code: the voice classifier's two-stage age/gender rule,
the YouTube crawler's manifest-record creation, language-folder validation,
workspace-root resolution, manifest-lock backoff, download rollback, the
TikTok channel-discovery quality assessment, the upload client, and the demo
web page's chat renderer.  Machine floats are modelled as exact rationals.
-/

namespace Spec2Proof

/-! ### Voice classifier (standalone tool and crawler analyzer)

Embedded from `classify_age_group` as quoted in
`AudioClassificationAndFiltering_20250623/docs/4_understand_results.md`:
the model returns gender probabilities `[female, male, child]` and a
normalized age estimate; the rule is `child` when `child_prob > child_threshold`,
else `child` when `age_normalized < age_threshold`, else `adult`. -/

inductive AgeLabel
  | child
  | adult
  deriving DecidableEq, Repr

/-- Gender probabilities in model order `[female, male, child]`. -/
structure GenderProbs where
  female : ℚ
  male : ℚ
  child : ℚ
  deriving DecidableEq, Repr

def classifyAgeGroup (child_threshold age_threshold : ℚ)
    (age_normalized : ℚ) (gender_probs : GenderProbs) : AgeLabel × ℚ :=
  let child_prob := gender_probs.child
  if child_prob > child_threshold then (AgeLabel.child, child_prob)
  else if age_normalized < age_threshold then (AgeLabel.child, age_normalized)
  else (AgeLabel.adult, 1 - child_prob)

/-- The model's age output is normalized so that `age_threshold = 0.25`
corresponds to roughly 25 years (`docs/4_understand_results.md`). -/
def ageNormalizedOfYears (years : ℚ) : ℚ := years / 100

/-- Default `child_threshold = 0.4` of the classifier. -/
def defaultChildThreshold : ℚ := 4/10

/-- Default `age_threshold = 0.25` of the classifier. -/
def defaultAgeThreshold : ℚ := 25/100

/-! ### Crawler analyzer threshold wiring

Embedded from `VoiceClassifier.__init__` as quoted in the integration
verification report: `AnalysisConfig` has exactly the fields
`wav2vec2_model`, `child_voice_threshold`, `language_confidence_threshold`,
and the classifier copies `child_voice_threshold` into `child_threshold`
and `language_confidence_threshold` into `age_threshold`. -/

structure AnalysisConfig where
  wav2vec2_model : String
  child_voice_threshold : ℚ
  language_confidence_threshold : ℚ
  deriving DecidableEq, Repr

structure VoiceClassifierState where
  model_name : String
  child_threshold : ℚ
  age_threshold : ℚ
  deriving DecidableEq, Repr

def VoiceClassifier.init (config : AnalysisConfig) : VoiceClassifierState :=
  { model_name := config.wav2vec2_model
    child_threshold := config.child_voice_threshold
    age_threshold := config.language_confidence_threshold }

def VoiceClassifierState.classify (s : VoiceClassifierState)
    (age_normalized : ℚ) (gender_probs : GenderProbs) : AgeLabel × ℚ :=
  classifyAgeGroup s.child_threshold s.age_threshold age_normalized gender_probs

theorem classify_child_iff (ct at_ age p f m : ℚ) :
    (classifyAgeGroup ct at_ age ⟨f, m, p⟩).1 = AgeLabel.child ↔ (p > ct ∨ age < at_) := by
  unfold classifyAgeGroup
  dsimp only
  split_ifs with h1 h2
  · simp [h1]
  · simp [h2]
  · simp [h1, h2]

/-- Claim C2: the two-stage rule labels an audio `child` exactly when the
child probability exceeds the default threshold 0.4, or otherwise when the
normalized age estimate is below the default age threshold 0.25; in every
other case it labels `adult`.  Concretely, `child_probability = 0.45` yields
`child`; `child_probability = 0.35` with age 20 yields `child` through the
age branch (the returned confidence is the age value); and
`child_probability = 0.30` with age 30 yields `adult`. -/
theorem classification_threshold_rule :
    (∀ age p f m : ℚ,
      (classifyAgeGroup defaultChildThreshold defaultAgeThreshold age ⟨f, m, p⟩).1
        = AgeLabel.child ↔ (p > defaultChildThreshold ∨ age < defaultAgeThreshold))
    ∧ (∀ age f m : ℚ,
      (classifyAgeGroup defaultChildThreshold defaultAgeThreshold age ⟨f, m, 45/100⟩).1
        = AgeLabel.child)
    ∧ classifyAgeGroup defaultChildThreshold defaultAgeThreshold
        (ageNormalizedOfYears 20) ⟨0, 0, 35/100⟩ = (AgeLabel.child, 1/5)
    ∧ (classifyAgeGroup defaultChildThreshold defaultAgeThreshold
        (ageNormalizedOfYears 30) ⟨0, 0, 30/100⟩).1 = AgeLabel.adult := by
  refine ⟨fun age p f m => classify_child_iff _ _ _ _ _ _, fun age f m => ?_, ?_, ?_⟩
  · rw [classify_child_iff]
    left
    norm_num [defaultChildThreshold]
  · norm_num [classifyAgeGroup, defaultChildThreshold, defaultAgeThreshold,
      ageNormalizedOfYears]
  · norm_num [classifyAgeGroup, defaultChildThreshold, defaultAgeThreshold,
      ageNormalizedOfYears]

/-- Claim C10: the crawler's `VoiceClassifier` takes `child_threshold` from the
configuration field `child_voice_threshold` and `age_threshold` from
`language_confidence_threshold` (there is no dedicated age-threshold
configuration field in `AnalysisConfig`), so the age-based child branch
compares the normalized age estimate against the language-confidence setting.
The final conjunct exhibits a configuration (`language_confidence_threshold
= 0.8`) under which the crawler's classifier decides `child` for an input the
dedicated-0.25-default rule would label `adult`. -/
theorem classifier_threshold_wiring :
    (∀ cfg : AnalysisConfig,
      (VoiceClassifier.init cfg).child_threshold = cfg.child_voice_threshold
      ∧ (VoiceClassifier.init cfg).age_threshold = cfg.language_confidence_threshold)
    ∧ (∀ (cfg : AnalysisConfig) (age p f m : ℚ),
      ((VoiceClassifier.init cfg).classify age ⟨f, m, p⟩).1 = AgeLabel.child
        ↔ (p > cfg.child_voice_threshold ∨ age < cfg.language_confidence_threshold))
    ∧ ((VoiceClassifier.init
          { wav2vec2_model := "audeering/wav2vec2-large-robust-24-ft-age-gender"
            child_voice_threshold := 1/2
            language_confidence_threshold := 8/10 }).classify
          (1/2) ⟨0, 0, 0⟩).1 = AgeLabel.child
    ∧ (classifyAgeGroup (1/2) defaultAgeThreshold (1/2) ⟨0, 0, 0⟩).1 = AgeLabel.adult := by
  refine ⟨fun cfg => ⟨rfl, rfl⟩, fun cfg age p f m => ?_, ?_, ?_⟩
  · exact classify_child_iff _ _ _ _ _ _
  · norm_num [VoiceClassifier.init, VoiceClassifierState.classify, classifyAgeGroup]
  · norm_num [classifyAgeGroup, defaultAgeThreshold]

/-! ### Manifest record creation in the download phase

Embedded from `download_phases.py` as quoted in
`Crawl_YoutubeWithChildrenVoice/history/CRITICAL_ISSUES_ANALYSIS.md`
(CRITICAL #1 and #2) in the fixed form that
`history/REMAINING_CRITICAL_ISSUES.md` records as applied: the success-path
record is the quoted 15-field dictionary, and the failure-path record is the
quoted 12-field dictionary extended with the four fields the fix adds
(`classification_timestamp`, `containing_children_voice`,
`voice_analysis_confidence`, `uploaded`).  A record is an association list
from field names to JSON-like values, preserving which keys are present. -/

inductive JValue
  | null
  | str (s : String)
  | num (q : ℚ)
  | flag (b : Bool)
  deriving DecidableEq, Repr

/-- The ManifestRecord field set enumerated in the spec's data model (§3):
identity, download state, classification state, organization state,
upload state. -/
def manifestFieldSet : List String :=
  ["video_id", "url", "title",
   "output_path", "status", "download_index", "duration_seconds",
   "all_downloads_failed",
   "classified", "containing_children_voice", "voice_analysis_confidence",
   "detected_language", "language_confidence", "classification_timestamp",
   "language_folder", "file_available",
   "uploaded", "upload_timestamp"]

/-- Success-path record, from the applied fix for CRITICAL #1
(`duration_seconds` is `result.duration or 0.0`). -/
def mkSuccessRecord (video_id url new_path timestamp title language_info : String)
    (duration : Option ℚ) (download_index : ℕ) : List (String × JValue) :=
  [("video_id", JValue.str video_id),
   ("url", JValue.str url),
   ("output_path", JValue.str new_path),
   ("status", JValue.str "success"),
   ("timestamp", JValue.str timestamp),
   ("duration_seconds", JValue.num (duration.getD 0)),
   ("title", JValue.str title),
   ("language_folder", JValue.str language_info),
   ("download_index", JValue.num download_index),
   ("classified", JValue.flag false),
   ("classification_timestamp", JValue.null),
   ("containing_children_voice", JValue.null),
   ("voice_analysis_confidence", JValue.num 0),
   ("uploaded", JValue.flag false),
   ("file_available", JValue.flag true)]

/-- Failure-path record, from the quoted `failed_record` of CRITICAL #2 plus
the four fields its applied fix adds (`download_index` is
`len(manifest_data['records'])`). -/
def mkFailedRecord (video_id url timestamp title : String)
    (numRecords : ℕ) : List (String × JValue) :=
  [("video_id", JValue.str video_id),
   ("url", JValue.str url),
   ("output_path", JValue.null),
   ("status", JValue.str "failed"),
   ("timestamp", JValue.str timestamp),
   ("duration_seconds", JValue.num 0),
   ("title", JValue.str title),
   ("language_folder", JValue.str "unknown"),
   ("download_index", JValue.num numRecords),
   ("classified", JValue.flag false),
   ("file_available", JValue.flag false),
   ("all_downloads_failed", JValue.flag true),
   ("classification_timestamp", JValue.null),
   ("containing_children_voice", JValue.null),
   ("voice_analysis_confidence", JValue.num 0),
   ("uploaded", JValue.flag false)]

def recordKeys (record : List (String × JValue)) : List String :=
  record.map Prod.fst

/-- Counterexample to claim C1: the record created on the download success
path omits the data-model field `detected_language` (it likewise omits
`language_confidence`, `upload_timestamp` and `all_downloads_failed`), and
the failure-path record omits `upload_timestamp`; so created records do not
carry the complete field set enumerated in the data model. -/
theorem manifest_record_missing_fields :
    "detected_language" ∈ manifestFieldSet
    ∧ "detected_language" ∉ recordKeys (mkSuccessRecord "vid1" "u" "p" "t" "ti" "vi" none 0)
    ∧ "all_downloads_failed" ∉ recordKeys (mkSuccessRecord "vid1" "u" "p" "t" "ti" "vi" none 0)
    ∧ "upload_timestamp" ∈ manifestFieldSet
    ∧ "upload_timestamp" ∉ recordKeys (mkFailedRecord "vid1" "u" "t" "ti" 0) := by
  refine ⟨?_, ?_, ?_, ?_, ?_⟩ <;> decide

/-- Claim C1 as amended: every record created by the download phase — on the
success path and on the failure path alike — carries a fixed field set with
explicit defaults (`classified = False`, `classification_timestamp = None`,
`containing_children_voice = None`, `voice_analysis_confidence = 0.0`,
`uploaded = False`, and `file_available`/`all_downloads_failed`/`status`
according to the path); the data-model fields `detected_language`,
`language_confidence` and `upload_timestamp` (and, on the success path,
`all_downloads_failed`) are not present at creation, being added only by the
later analysis and upload phases. -/
theorem manifest_record_creation_fields :
    ∀ (video_id url new_path timestamp title language_info : String)
      (duration : Option ℚ) (download_index numRecords : ℕ),
    recordKeys (mkSuccessRecord video_id url new_path timestamp title
        language_info duration download_index)
      = ["video_id", "url", "output_path", "status", "timestamp",
         "duration_seconds", "title", "language_folder", "download_index",
         "classified", "classification_timestamp", "containing_children_voice",
         "voice_analysis_confidence", "uploaded", "file_available"]
    ∧ recordKeys (mkFailedRecord video_id url timestamp title numRecords)
      = ["video_id", "url", "output_path", "status", "timestamp",
         "duration_seconds", "title", "language_folder", "download_index",
         "classified", "file_available", "all_downloads_failed",
         "classification_timestamp", "containing_children_voice",
         "voice_analysis_confidence", "uploaded"]
    ∧ (mkSuccessRecord video_id url new_path timestamp title
        language_info duration download_index).lookup "classified"
      = some (JValue.flag false)
    ∧ (mkSuccessRecord video_id url new_path timestamp title
        language_info duration download_index).lookup "containing_children_voice"
      = some JValue.null
    ∧ (mkSuccessRecord video_id url new_path timestamp title
        language_info duration download_index).lookup "voice_analysis_confidence"
      = some (JValue.num 0)
    ∧ (mkSuccessRecord video_id url new_path timestamp title
        language_info duration download_index).lookup "classification_timestamp"
      = some JValue.null
    ∧ (mkSuccessRecord video_id url new_path timestamp title
        language_info duration download_index).lookup "uploaded"
      = some (JValue.flag false)
    ∧ (mkSuccessRecord video_id url new_path timestamp title
        language_info duration download_index).lookup "file_available"
      = some (JValue.flag true)
    ∧ (mkFailedRecord video_id url timestamp title numRecords).lookup "classified"
      = some (JValue.flag false)
    ∧ (mkFailedRecord video_id url timestamp title numRecords).lookup
        "containing_children_voice" = some JValue.null
    ∧ (mkFailedRecord video_id url timestamp title numRecords).lookup
        "voice_analysis_confidence" = some (JValue.num 0)
    ∧ (mkFailedRecord video_id url timestamp title numRecords).lookup
        "classification_timestamp" = some JValue.null
    ∧ (mkFailedRecord video_id url timestamp title numRecords).lookup "uploaded"
      = some (JValue.flag false)
    ∧ (mkFailedRecord video_id url timestamp title numRecords).lookup
        "file_available" = some (JValue.flag false)
    ∧ (mkFailedRecord video_id url timestamp title numRecords).lookup
        "all_downloads_failed" = some (JValue.flag true) := by
  intro video_id url new_path timestamp title language_info duration download_index numRecords
  refine ⟨rfl, rfl, ?_, ?_, ?_, ?_, ?_, ?_, ?_, ?_, ?_, ?_, ?_, ?_, ?_⟩ <;> rfl

/-! ### Language-folder validation in the filter phase

Embedded from `filtering_phases.py` as quoted in
`CRITICAL_ISSUES_ANALYSIS.md` CRITICAL #5 in the fixed (whitelist) form that
`REMAINING_CRITICAL_ISSUES.md` records as applied:
`record.get('language_folder', 'unknown')` followed by
`if language_folder not in VALID_LANGUAGES: language_folder = 'unknown'`. -/

def VALID_LANGUAGES : List String := ["vi", "en", "unknown", "unclassified"]

def validateLanguageFolder (raw : Option String) : String :=
  let language_folder := raw.getD "unknown"
  if language_folder ∈ VALID_LANGUAGES then language_folder else "unknown"

/-- Counterexample to claim C3: the input `"unclassified"` is neither `"vi"`
nor `"en"` yet resolves to itself, not to `"unknown"`; so it is not the case
that every value other than `"vi"` and `"en"` resolves to `"unknown"`. -/
theorem language_folder_unclassified_fixed_point :
    validateLanguageFolder (some "unclassified") = "unclassified"
    ∧ "unclassified" ≠ "vi" ∧ "unclassified" ≠ "en"
    ∧ validateLanguageFolder (some "unclassified") ≠ "unknown" := by
  refine ⟨?_, ?_, ?_, ?_⟩ <;> decide

/-- Claim C3 as amended: the destination subdirectory is validated against
the fixed whitelist `{vi, en, unknown, unclassified}` — every whitelisted
value (so also `unknown` and `unclassified`, not only `vi` and `en`) resolves
to itself, every other value (including the hostile `"../../etc"`,
`"vi/../../x"` and the empty string, and a missing field) resolves to
`"unknown"`, and no input ever resolves outside the whitelist. -/
theorem language_folder_whitelist :
    (∀ raw : Option String, validateLanguageFolder raw ∈ VALID_LANGUAGES)
    ∧ (∀ s : String, s ∈ VALID_LANGUAGES → validateLanguageFolder (some s) = s)
    ∧ (∀ s : String, s ∉ VALID_LANGUAGES → validateLanguageFolder (some s) = "unknown")
    ∧ validateLanguageFolder (some "vi") = "vi"
    ∧ validateLanguageFolder (some "en") = "en"
    ∧ validateLanguageFolder (some "../../etc") = "unknown"
    ∧ validateLanguageFolder (some "vi/../../x") = "unknown"
    ∧ validateLanguageFolder (some "") = "unknown"
    ∧ validateLanguageFolder none = "unknown" := by
  refine ⟨?_, ?_, ?_, ?_, ?_, ?_, ?_, ?_, ?_⟩
  · intro raw
    unfold validateLanguageFolder
    dsimp only
    split_ifs with h
    · exact h
    · decide
  · intro s hs
    unfold validateLanguageFolder
    simp [hs]
  · intro s hs
    unfold validateLanguageFolder
    simp [hs]
  all_goals decide

/-- Witness for `language_folder_whitelist` at concrete inputs. -/
theorem language_folder_whitelist_witness :
    validateLanguageFolder (some "vi") ∈ VALID_LANGUAGES
    ∧ validateLanguageFolder (some "en") = "en"
    ∧ validateLanguageFolder (some "../../x") = "unknown" :=
  ⟨language_folder_whitelist.1 (some "vi"),
   language_folder_whitelist.2.1 "en" (by decide),
   language_folder_whitelist.2.2.1 "../../x" (by decide)⟩

/-! ### Workspace-root resolution in the analysis phase

Embedded from `analysis_phases.py` as quoted in `CRITICAL_ISSUES_ANALYSIS.md`
CRITICAL #3 in the fixed form (`< 3`, recorded as applied in
`REMAINING_CRITICAL_ISSUES.md`): a depth check on `manifest_file.parents`
skips the record with a descriptive error, and otherwise the workspace root
is `manifest_file.parents[2]`.  A path is its list of components; `parents`
mirrors `pathlib` on relative paths, where the parents of
`workspace/output/final_audio/manifest.json` are
`[workspace/output/final_audio, workspace/output, workspace, .]`. -/

def pathParents (p : List String) : List (List String) :=
  (List.range p.length).map (fun k => p.take (p.length - (k + 1)))

inductive ResolveOutcome
  | err (msg : String)
  | ok (workspace_root : List String)
  deriving DecidableEq, Repr

def resolveWorkspaceRoot (manifest_file : List String) : ResolveOutcome :=
  let parents := pathParents manifest_file
  if parents.length < 3 then
    ResolveOutcome.err "manifest path has insufficient depth"
  else
    ResolveOutcome.ok (parents.getD 2 [])

theorem pathParents_length (p : List String) : (pathParents p).length = p.length := by
  simp [pathParents]

/-- Claim C5: the analysis phase resolves the workspace root as
`manifest_file.parents[2]` — for a manifest at
`workspace/output/final_audio/manifest.json` this is the workspace root —
and any manifest path with fewer than three parents is treated as an
unresolvable-path error with a descriptive message, the record being skipped
rather than indexed out of range (the element at index 2 is read only under
the depth guard, and equals the path with its last three components
removed). -/
theorem workspace_root_resolution :
    ∀ p : List String,
    (p.length < 3 →
      resolveWorkspaceRoot p = ResolveOutcome.err "manifest path has insufficient depth")
    ∧ (3 ≤ p.length →
      resolveWorkspaceRoot p = ResolveOutcome.ok (p.take (p.length - 3)))
    ∧ resolveWorkspaceRoot ["workspace", "output", "final_audio", "manifest.json"]
      = ResolveOutcome.ok ["workspace"]
    ∧ resolveWorkspaceRoot ["final_audio", "manifest.json"]
      = ResolveOutcome.err "manifest path has insufficient depth" := by
  intro p
  refine ⟨?_, ?_, by decide, by decide⟩
  · intro h
    unfold resolveWorkspaceRoot
    rw [if_pos]
    rwa [pathParents_length]
  · intro h
    unfold resolveWorkspaceRoot
    rw [if_neg]
    · have h2 : 2 < (pathParents p).length := by
        rw [pathParents_length]; omega
      have hr2 : 2 < p.length := by rwa [pathParents_length] at h2
      rw [List.getD_eq_getElem _ _ h2]
      congr 1
      simp [pathParents]
    · rw [pathParents_length]; omega

/-- Witness for `workspace_root_resolution` at concrete paths. -/
theorem workspace_root_resolution_witness :
    resolveWorkspaceRoot ["final_audio", "manifest.json"]
      = ResolveOutcome.err "manifest path has insufficient depth"
    ∧ resolveWorkspaceRoot ["workspace", "output", "final_audio", "manifest.json"]
      = ResolveOutcome.ok
          (["workspace", "output", "final_audio", "manifest.json"].take 1) :=
  ⟨(workspace_root_resolution ["final_audio", "manifest.json"]).1 (by decide),
   (workspace_root_resolution
      ["workspace", "output", "final_audio", "manifest.json"]).2.1 (by decide)⟩

/-! ### Download-phase manifest write and rollback

Embedded from `download_phases.py` as described in
`REMAINING_CRITICAL_ISSUES.md` CRITICAL #2 (fix applied): the manifest is
written before the file move — a record with the same `video_id` is updated
in place, otherwise the new record is appended and the total duration
increased; when the subsequent move fails, the rollback executes
`manifest_data['records'].pop()` and subtracts the duration only when the
record was newly appended (`if not existing_record`), and does nothing when
an existing record was updated in place. -/

structure DLRecord where
  video_id : String
  duration_seconds : ℚ
  output_path : String
  deriving DecidableEq, Repr

structure Manifest where
  records : List DLRecord
  total_duration_seconds : ℚ
  deriving DecidableEq, Repr

/-- Whether the manifest already holds a record for this video id. -/
def containsId (records : List DLRecord) (vid : String) : Bool :=
  records.any (fun rec => rec.video_id == vid)

/-- In-place update of the existing record for `r.video_id`. -/
def updateRecord (records : List DLRecord) (r : DLRecord) : List DLRecord :=
  match records with
  | [] => []
  | a :: rest =>
    if a.video_id == r.video_id then r :: rest
    else a :: updateRecord rest r

/-- Manifest write before the file move; the returned flag records whether an
existing record was updated in place (`true`) or a new record appended
(`false`). -/
def writeManifestRecord (m : Manifest) (r : DLRecord) : Manifest × Bool :=
  if containsId m.records r.video_id then
    ({ records := updateRecord m.records r
       total_duration_seconds := m.total_duration_seconds }, true)
  else
    ({ records := m.records ++ [r]
       total_duration_seconds := m.total_duration_seconds + r.duration_seconds },
     false)

/-- Rollback after a failed file move, from the applied fix: pop the last
record and subtract the duration only when the record was newly appended. -/
def rollbackFailedMove (m : Manifest) (r : DLRecord) (existing_record : Bool) : Manifest :=
  if existing_record then m
  else { records := m.records.dropLast
         total_duration_seconds := m.total_duration_seconds - r.duration_seconds }

theorem updateRecord_length (l : List DLRecord) (r : DLRecord) :
    (updateRecord l r).length = l.length := by
  induction l with
  | nil => rfl
  | cons a rest ih =>
    unfold updateRecord
    split_ifs with h
    · rfl
    · simp [ih]

theorem updateRecord_map_id (l : List DLRecord) (r : DLRecord) :
    (updateRecord l r).map DLRecord.video_id = l.map DLRecord.video_id := by
  induction l with
  | nil => rfl
  | cons a rest ih =>
    unfold updateRecord
    split_ifs with h
    · have : a.video_id = r.video_id := by
        have hb : (a.video_id == r.video_id) = true := h
        exact eq_of_beq hb
      simp [this]
    · simp [ih]

/-- Claim C4: when the file move fails after the manifest write, the rollback
removes the just-added record exactly when it was newly appended — restoring
the manifest to its pre-write state — and when the write updated an existing
record in place the rollback removes nothing: the records list keeps its
length and its video ids, so the rollback is never a blind removal of the
last record. -/
theorem rollback_correct :
    ∀ (m : Manifest) (r : DLRecord),
    (containsId m.records r.video_id = false →
      (writeManifestRecord m r).2 = false
      ∧ rollbackFailedMove (writeManifestRecord m r).1 r (writeManifestRecord m r).2 = m)
    ∧ (containsId m.records r.video_id = true →
      (writeManifestRecord m r).2 = true
      ∧ rollbackFailedMove (writeManifestRecord m r).1 r (writeManifestRecord m r).2
          = (writeManifestRecord m r).1
      ∧ ((writeManifestRecord m r).1).records.length = m.records.length
      ∧ ((writeManifestRecord m r).1).records.map DLRecord.video_id
          = m.records.map DLRecord.video_id) := by
  intro m r
  constructor
  · intro hnone
    have hw : writeManifestRecord m r
        = ({ records := m.records ++ [r]
             total_duration_seconds := m.total_duration_seconds + r.duration_seconds },
           false) := by
      unfold writeManifestRecord
      rw [hnone]
      simp
    rw [hw]
    refine ⟨rfl, ?_⟩
    unfold rollbackFailedMove
    simp only [Bool.false_eq_true, if_false]
    cases m with
    | mk recs total =>
      simp [List.dropLast_concat]
  · intro hsome
    have hw : writeManifestRecord m r
        = ({ records := updateRecord m.records r
             total_duration_seconds := m.total_duration_seconds }, true) := by
      unfold writeManifestRecord
      rw [hsome]
      simp
    rw [hw]
    exact ⟨rfl, rfl, updateRecord_length _ _, updateRecord_map_id _ _⟩

/-- Witness for `rollback_correct`: a one-record manifest exercising both the
newly-appended branch (distinct video id) and the update-in-place branch
(matching video id). -/
theorem rollback_correct_witness :
    (rollbackFailedMove
        (writeManifestRecord
          { records := [{ video_id := "a", duration_seconds := 5, output_path := "pa" }]
            total_duration_seconds := 5 }
          { video_id := "b", duration_seconds := 7, output_path := "pb" }).1
        { video_id := "b", duration_seconds := 7, output_path := "pb" }
        (writeManifestRecord
          { records := [{ video_id := "a", duration_seconds := 5, output_path := "pa" }]
            total_duration_seconds := 5 }
          { video_id := "b", duration_seconds := 7, output_path := "pb" }).2
      = { records := [{ video_id := "a", duration_seconds := 5, output_path := "pa" }]
          total_duration_seconds := 5 })
    ∧ ((writeManifestRecord
          { records := [{ video_id := "a", duration_seconds := 5, output_path := "pa" }]
            total_duration_seconds := 5 }
          { video_id := "a", duration_seconds := 9, output_path := "pa2" }).1).records.length
      = 1 :=
  ⟨((rollback_correct
      { records := [{ video_id := "a", duration_seconds := 5, output_path := "pa" }]
        total_duration_seconds := 5 }
      { video_id := "b", duration_seconds := 7, output_path := "pb" }).1
      (by decide)).2,
   ((rollback_correct
      { records := [{ video_id := "a", duration_seconds := 5, output_path := "pa" }]
        total_duration_seconds := 5 }
      { video_id := "a", duration_seconds := 9, output_path := "pa2" }).2
      (by decide)).2.2.1⟩

/-! ### Upload client selection and manifest marking

Modelled from the spec: the upload client itself (`src/uploader` upload API
client) is not present in the repository sources — only its behavior is
given, in §4.7 of the specification ("reads a manifest, selects records
where `classified=true`, `containing_children_voice=true`, `uploaded=false`
... then marks each successfully transferred record `uploaded=true` in the
manifest") and in the design document's upload-phase description.  Records
carry the three fields the selection reads plus the video id. -/

structure UploadRecord where
  video_id : String
  classified : Bool
  containing_children_voice : Bool
  uploaded : Bool
  deriving DecidableEq, Repr

def uploadEligible (r : UploadRecord) : Bool :=
  r.classified && r.containing_children_voice && !r.uploaded

/-- Modelled from the spec: the client's record selection. -/
def selectUploadRecords (records : List UploadRecord) : List UploadRecord :=
  records.filter uploadEligible

/-- Modelled from the spec: after the parallel transfer, each record whose
file was successfully transferred (per `succeeded`, keyed by video id) is
marked `uploaded=true` in the manifest; a partially failed batch still marks
the individually-succeeded files. -/
def markUploaded (records : List UploadRecord) (succeeded : String → Bool) :
    List UploadRecord :=
  records.map (fun r =>
    if uploadEligible r && succeeded r.video_id then
      { r with uploaded := true }
    else r)

theorem uploadEligible_iff (r : UploadRecord) :
    uploadEligible r = true
      ↔ (r.classified = true ∧ r.containing_children_voice = true ∧ r.uploaded = false) := by
  simp [uploadEligible, and_assoc]

theorem select_mark (records : List UploadRecord) (succeeded : String → Bool) :
    selectUploadRecords (markUploaded records succeeded)
      = records.filter (fun r => uploadEligible r && !succeeded r.video_id) := by
  induction records with
  | nil => rfl
  | cons a rest ih =>
    simp only [markUploaded, selectUploadRecords, List.map_cons,
      List.filter_cons] at ih ⊢
    by_cases ha : uploadEligible a = true
    · by_cases hs : succeeded a.video_id = true
      · have h1 : uploadEligible { a with uploaded := true } = false := by
          simp [uploadEligible]
        simp only [Bool.and_eq_true] at ih
        simp [ha, hs, h1]
        exact ih
      · have hsf : succeeded a.video_id = false := by
          cases h : succeeded a.video_id
          · rfl
          · exact absurd h hs
        simp only [Bool.and_eq_true] at ih
        simp [ha, hsf]
        exact ih
    · have haf : uploadEligible a = false := by
        cases h : uploadEligible a
        · rfl
        · exact absurd h ha
      simp only [Bool.and_eq_true] at ih
      simp [haf]
      exact ih

/-- Claim C8: the upload client selects exactly the records with
`classified=true`, `containing_children_voice=true` and `uploaded=false`, and
marks each successfully transferred record `uploaded=true`; re-running the
selection after a partial failure therefore yields exactly the eligible
records whose transfer did not succeed (those still `uploaded=false`), and a
record already marked `uploaded=true` survives the marking unchanged and is
never selected again. -/
theorem upload_selection_idempotent :
    ∀ (records : List UploadRecord) (succeeded : String → Bool),
    (∀ r, r ∈ selectUploadRecords records
      ↔ (r ∈ records ∧ r.classified = true ∧ r.containing_children_voice = true
          ∧ r.uploaded = false))
    ∧ selectUploadRecords (markUploaded records succeeded)
      = records.filter (fun r => uploadEligible r && !succeeded r.video_id)
    ∧ (∀ r, r ∈ records → r.uploaded = true →
        r ∈ markUploaded records succeeded
        ∧ r ∉ selectUploadRecords (markUploaded records succeeded)) := by
  intro records succeeded
  refine ⟨?_, select_mark records succeeded, ?_⟩
  · intro r
    simp only [selectUploadRecords, List.mem_filter, uploadEligible_iff]
  · intro r hr hup
    have hne : uploadEligible r = false := by
      simp [uploadEligible, hup]
    have hfix : (if uploadEligible r && succeeded r.video_id then
        { r with uploaded := true } else r) = r := by
      rw [hne]
      simp
    constructor
    · unfold markUploaded
      rw [← hfix]
      exact List.mem_map_of_mem _ hr
    · intro hmem
      rw [selectUploadRecords, List.mem_filter] at hmem
      rw [hne] at hmem
      exact absurd hmem.2 (by simp)

/-- Witness for `upload_selection_idempotent` at a concrete two-record
manifest where one eligible record's transfer failed. -/
theorem upload_selection_idempotent_witness :
    ({ video_id := "a", classified := true, containing_children_voice := true,
       uploaded := true : UploadRecord }
      ∉ selectUploadRecords (markUploaded
          [{ video_id := "a", classified := true, containing_children_voice := true,
             uploaded := true },
           { video_id := "b", classified := true, containing_children_voice := true,
             uploaded := false }]
          (fun _ => false))) :=
  ((upload_selection_idempotent
      [{ video_id := "a", classified := true, containing_children_voice := true,
         uploaded := true },
       { video_id := "b", classified := true, containing_children_voice := true,
         uploaded := false }]
      (fun _ => false)).2.2
    { video_id := "a", classified := true, containing_children_voice := true,
      uploaded := true }
    (by decide) rfl).2

/-! ### TikTok channel-discovery quality assessment

Embedded from the quality-assessment code in
`Crawl_Tiktok_rapidapi/tiktok_1_user_info.ipynb`:
`qualification_rate = (qualified_videos / total_videos) * 100` followed by
`if qualification_rate >= channel_quality_threshold:
promising_channels.add(username)`, with the configured default
`"channel_quality_threshold": 0.3` documented there as "30% of videos must
qualify to mark as promising". -/

def qualification_rate (qualified_videos total_videos : ℕ) : ℚ :=
  ((qualified_videos : ℚ) / (total_videos : ℚ)) * 100

def isPromising (qualified_videos total_videos : ℕ)
    (channel_quality_threshold : ℚ) : Prop :=
  qualification_rate qualified_videos total_videos ≥ channel_quality_threshold

instance (q t : ℕ) (c : ℚ) : Decidable (isPromising q t c) := by
  unfold isPromising
  infer_instance

def defaultChannelQualityThreshold : ℚ := 3/10

/-- Claim C7 fails on the code (units bug): a creator with 1 qualifying video
out of 100 has qualification fraction 1/100, far below the default threshold
0.3, yet the code marks the creator promising — `qualification_rate` is a
percentage (multiplied by 100) while the configured threshold 0.3 is a
fraction, so the comparison `rate >= threshold` effectively uses a 0.3%% bar,
contradicting the notebook's own "30% of videos must qualify" comment.  The
last conjunct records that under the claimed rule (fraction ≥ threshold) the
same creator is not promising. -/
theorem channel_promising_units_bug :
    isPromising 1 100 defaultChannelQualityThreshold
    ∧ ((1 : ℚ) / 100 < defaultChannelQualityThreshold)
    ∧ ¬ ((1 : ℚ) / 100 ≥ defaultChannelQualityThreshold) := by
  refine ⟨?_, ?_, ?_⟩
  · unfold isPromising qualification_rate defaultChannelQualityThreshold
    norm_num
  · norm_num [defaultChannelQualityThreshold]
  · norm_num [defaultChannelQualityThreshold]

/-! ### Demo web page chat rendering

Embedded from `renderChat` in
`TASK1_Speech2Text2SignRoles/Ver_Sales_call_API/templates/index.html`: the
assigned-roles text is split on newlines; a line whose trimmed form is empty
is skipped; a line starting with the salesperson label gets a `sales` bubble
and a line starting with the customer label gets a `customer` bubble, in both
cases with the label removed (JavaScript `replace` removes the first
occurrence) and the remainder trimmed; any other line is skipped.  Strings
are modelled as character lists, with the JavaScript string built-ins
(`split`, `trim`, `startsWith`, first-occurrence `replace`) reimplemented
structurally so that they are kernel-computable. -/

def salesLabel : List Char := "Nhân viên bán hàng:".data

def customerLabel : List Char := "Khách hàng:".data

/-- JavaScript `s.split(sep)` for a one-character separator. -/
def splitOnChar (sep : Char) : List Char → List (List Char)
  | [] => [[]]
  | c :: rest =>
    let r := splitOnChar sep rest
    if c == sep then [] :: r
    else
      match r with
      | [] => [[c]]
      | x :: xs => (c :: x) :: xs

/-- JavaScript `s.trim()`: strip leading and trailing whitespace. -/
def jsTrim (l : List Char) : List Char :=
  ((l.dropWhile Char.isWhitespace).reverse.dropWhile Char.isWhitespace).reverse

/-- JavaScript `s.startsWith(pat)`. -/
def beginsWith : List Char → List Char → Bool
  | [], _ => true
  | _ :: _, [] => false
  | p :: ps, c :: cs => p == c && beginsWith ps cs

/-- JavaScript `s.replace(pat, '')`: remove the first occurrence of `pat`. -/
def removeFirst (pat : List Char) : List Char → List Char
  | [] => []
  | c :: rest =>
    if beginsWith pat (c :: rest) then (c :: rest).drop pat.length
    else c :: removeFirst pat rest

inductive ChatBubble
  | sales (text : List Char)
  | customer (text : List Char)
  deriving DecidableEq, Repr

def renderLine (line : List Char) : Option ChatBubble :=
  if jsTrim line = [] then none
  else if beginsWith salesLabel line then
    some (ChatBubble.sales (jsTrim (removeFirst salesLabel line)))
  else if beginsWith customerLabel line then
    some (ChatBubble.customer (jsTrim (removeFirst customerLabel line)))
  else none

def renderChat (assignedRoles : String) : List ChatBubble :=
  (splitOnChar (Char.ofNat 10) assignedRoles.data).filterMap renderLine

/-- Claim C9: the demo page splits the assigned-roles text into lines and
renders a chat bubble only for lines beginning with the salesperson label
(`sales` bubble) or the customer label (`customer` bubble), stripping the
label from the displayed text; every blank line and every line with any
other prefix contributes nothing to the rendered chat.  The final conjunct
shows this on a four-line response containing one of each kind of line. -/
theorem render_chat_role_lines :
    (∀ line : List Char, jsTrim line = [] → renderLine line = none)
    ∧ (∀ line : List Char, jsTrim line ≠ [] → beginsWith salesLabel line = true →
        renderLine line = some (ChatBubble.sales (jsTrim (removeFirst salesLabel line))))
    ∧ (∀ line : List Char, jsTrim line ≠ [] → beginsWith salesLabel line = false →
        beginsWith customerLabel line = true →
        renderLine line = some (ChatBubble.customer (jsTrim (removeFirst customerLabel line))))
    ∧ (∀ line : List Char, beginsWith salesLabel line = false →
        beginsWith customerLabel line = false → renderLine line = none)
    ∧ renderChat
        "Nhân viên bán hàng: xin chào quý khách\n\nKhách hàng: tôi cần tư vấn\nNgười dẫn: hai bên chào nhau"
      = [ChatBubble.sales "xin chào quý khách".data,
         ChatBubble.customer "tôi cần tư vấn".data] := by
  refine ⟨?_, ?_, ?_, ?_, by decide⟩
  · intro line h
    unfold renderLine
    rw [if_pos h]
  · intro line h hs
    unfold renderLine
    rw [if_neg h, if_pos hs]
  · intro line h hs hc
    unfold renderLine
    rw [if_neg h, if_neg (by simp [hs]), if_pos hc]
  · intro line hs hc
    unfold renderLine
    by_cases h : jsTrim line = []
    · rw [if_pos h]
    · rw [if_neg h, if_neg (by simp [hs]), if_neg (by simp [hc])]

/-- Witness for `render_chat_role_lines` at concrete lines of each kind. -/
theorem render_chat_role_lines_witness :
    renderLine "   ".data = none
    ∧ renderLine "Nhân viên bán hàng: alo".data = some (ChatBubble.sales "alo".data)
    ∧ renderLine "Khách hàng: vâng".data = some (ChatBubble.customer "vâng".data)
    ∧ renderLine "Người thứ ba: chen vào".data = none :=
  ⟨render_chat_role_lines.1 "   ".data (by decide),
   by
     rw [render_chat_role_lines.2.1 "Nhân viên bán hàng: alo".data (by decide) (by decide)]
     decide,
   by
     rw [render_chat_role_lines.2.2.1 "Khách hàng: vâng".data (by decide) (by decide)
       (by decide)]
     decide,
   render_chat_role_lines.2.2.2.1 "Người thứ ba: chen vào".data (by decide) (by decide)⟩

/-! ### Manifest lock acquisition with exponential backoff

Embedded from `ManifestManager.acquire_lock` in `src/utils/file_manager.py`
as quoted (in its applied, fixed form) in
`history/FIXES_APPLIED_SUMMARY.md` and `history/CRITICAL_ISSUES_ANALYSIS.md`:
a loop runs while `time.time() - start_time < self._lock_timeout` (the
timeout is 30 seconds per `history/DETAILED_FIXES_AND_LOCATIONS.md`); each
contended attempt increments `attempt` and sleeps
`min(0.01 * (2 ** attempt), 1.0) * (0.5 + random.random())` seconds; once
the elapsed time reaches the timeout the loop exits returning failure.  Time
is modelled as the sum of the sleeps performed (the lock probe itself is
instantaneous), `lockBusy n` tells whether the n-th probe hits contention,
`rand n` is the n-th drawn jitter value, and the fuel argument (absent from
the code, whose loop is bounded by real time) makes the recursion total —
`none` marks fuel exhaustion and is never the outcome when the fuel covers
the timeout. -/

/-- The sleep computed for a contended attempt, from
`wait_time = min(0.01 * (2 ** attempt), 1.0) * (0.5 + random.random())`. -/
def backoffWait (attempt : ℕ) (rand : ℚ) : ℚ :=
  min (1/100 * 2 ^ attempt) 1 * (1/2 + rand)

inductive LockResult
  | acquired (sleeps : List ℚ)
  | timedOut (sleeps : List ℚ)
  deriving DecidableEq, Repr

def LockResult.sleeps : LockResult → List ℚ
  | acquired s => s
  | timedOut s => s

def LockResult.consSleep (w : ℚ) : LockResult → LockResult
  | acquired s => acquired (w :: s)
  | timedOut s => timedOut (w :: s)

def acquireLockAux (lockBusy : ℕ → Bool) (rand : ℕ → ℚ) (lock_timeout : ℚ) :
    ℕ → ℚ → ℕ → Option LockResult
  | 0, elapsed, attempt =>
    if lock_timeout ≤ elapsed then some (LockResult.timedOut [])
    else if lockBusy attempt then none
    else some (LockResult.acquired [])
  | fuel + 1, elapsed, attempt =>
    if lock_timeout ≤ elapsed then some (LockResult.timedOut [])
    else if lockBusy attempt then
      Option.map
        (LockResult.consSleep (backoffWait (attempt + 1) (rand (attempt + 1))))
        (acquireLockAux lockBusy rand lock_timeout fuel
          (elapsed + backoffWait (attempt + 1) (rand (attempt + 1))) (attempt + 1))
    else some (LockResult.acquired [])

def acquireLock (lockBusy : ℕ → Bool) (rand : ℕ → ℚ) (lock_timeout : ℚ)
    (fuel : ℕ) : Option LockResult :=
  acquireLockAux lockBusy rand lock_timeout fuel 0 0

/-- The lock's overall timeout, 30 seconds. -/
def defaultLockTimeout : ℚ := 30

theorem LockResult.sleeps_consSleep (w : ℚ) (r : LockResult) :
    (LockResult.consSleep w r).sleeps = w :: r.sleeps := by
  cases r <;> rfl

theorem acquireLockAux_sleeps (lockBusy : ℕ → Bool) (rand : ℕ → ℚ)
    (lock_timeout : ℚ) :
    ∀ (fuel : ℕ) (elapsed : ℚ) (attempt : ℕ) (res : LockResult),
    acquireLockAux lockBusy rand lock_timeout fuel elapsed attempt = some res →
    ∀ k, k < res.sleeps.length →
      res.sleeps.getD k 0 = backoffWait (attempt + k + 1) (rand (attempt + k + 1)) := by
  intro fuel
  induction fuel with
  | zero =>
    intro elapsed attempt res h k hk
    unfold acquireLockAux at h
    split_ifs at h with h1 h2
    all_goals first
      | exact Option.noConfusion h
      | (cases h
         simp [LockResult.sleeps] at hk)
  | succ fuel ih =>
    intro elapsed attempt res h k hk
    unfold acquireLockAux at h
    split_ifs at h with h1 h2
    · cases h
      simp [LockResult.sleeps] at hk
    · cases hmap : acquireLockAux lockBusy rand lock_timeout fuel
          (elapsed + backoffWait (attempt + 1) (rand (attempt + 1))) (attempt + 1) with
      | none =>
        rw [hmap] at h
        exact Option.noConfusion h
      | some res0 =>
        rw [hmap] at h
        have hres : res = LockResult.consSleep
            (backoffWait (attempt + 1) (rand (attempt + 1))) res0 := by
          simpa using h.symm
        subst hres
        rw [LockResult.sleeps_consSleep] at hk ⊢
        cases k with
        | zero => rfl
        | succ k =>
          have hk0 : k < res0.sleeps.length := by
            simpa using hk
          have := ih (elapsed + backoffWait (attempt + 1) (rand (attempt + 1)))
            (attempt + 1) res0 hmap k hk0
          have harith : attempt + 1 + k + 1 = attempt + (k + 1) + 1 := by omega
          rw [harith] at this
          simpa using this
    · cases h
      simp [LockResult.sleeps] at hk

theorem backoffWait_ge (attempt : ℕ) (r : ℚ) (h1 : 1 ≤ attempt) (hr : 0 ≤ r) :
    (1 : ℚ)/100 ≤ backoffWait attempt r := by
  unfold backoffWait
  have h2a : (2 : ℚ)/100 ≤ 1/100 * 2 ^ attempt := by
    have hp : (2 : ℚ) ≤ 2 ^ attempt := by
      calc (2 : ℚ) = 2 ^ 1 := (pow_one 2).symm
      _ ≤ 2 ^ attempt := pow_le_pow_right₀ (by norm_num) h1
    linarith
  have hmin : (1 : ℚ)/50 ≤ min (1/100 * 2 ^ attempt) 1 := by
    apply le_min
    · linarith
    · norm_num
  have hfac : (1 : ℚ)/2 ≤ 1/2 + r := by linarith
  calc (1 : ℚ)/100 = (1/50) * (1/2) := by norm_num
  _ ≤ min (1/100 * 2 ^ attempt) 1 * (1/2 + r) :=
      mul_le_mul hmin hfac (by norm_num) (le_trans (by norm_num) hmin)

theorem acquireLockAux_times_out (lockBusy : ℕ → Bool) (rand : ℕ → ℚ)
    (lock_timeout : ℚ) (hbusy : ∀ n, lockBusy n = true) (hrand : ∀ n, 0 ≤ rand n) :
    ∀ (fuel : ℕ) (elapsed : ℚ) (attempt : ℕ),
    lock_timeout ≤ elapsed + fuel * ((1 : ℚ)/100) →
    ∃ s, acquireLockAux lockBusy rand lock_timeout fuel elapsed attempt
      = some (LockResult.timedOut s) := by
  intro fuel
  induction fuel with
  | zero =>
    intro elapsed attempt h
    refine ⟨[], ?_⟩
    unfold acquireLockAux
    rw [if_pos]
    simpa using h
  | succ fuel ih =>
    intro elapsed attempt h
    by_cases h1 : lock_timeout ≤ elapsed
    · refine ⟨[], ?_⟩
      unfold acquireLockAux
      rw [if_pos h1]
    · have hw : (1 : ℚ)/100 ≤ backoffWait (attempt + 1) (rand (attempt + 1)) :=
        backoffWait_ge (attempt + 1) (rand (attempt + 1)) (by omega)
          (hrand (attempt + 1))
      have hnext : lock_timeout
          ≤ (elapsed + backoffWait (attempt + 1) (rand (attempt + 1)))
            + fuel * ((1 : ℚ)/100) := by
        have hcast : ((fuel + 1 : ℕ) : ℚ) * ((1 : ℚ)/100)
            = fuel * ((1 : ℚ)/100) + 1/100 := by
          push_cast
          ring
        rw [hcast] at h
        linarith
      obtain ⟨s, hs⟩ := ih (elapsed + backoffWait (attempt + 1) (rand (attempt + 1)))
        (attempt + 1) hnext
      refine ⟨backoffWait (attempt + 1) (rand (attempt + 1)) :: s, ?_⟩
      unfold acquireLockAux
      rw [if_neg h1, if_pos (hbusy attempt), hs]
      rfl

/-- Claim C6: in the manifest-lock acquisition loop, the k-th contended
attempt (1-indexed: the loop increments the attempt counter before
computing the wait) sleeps exactly
`min(0.01 * 2 ^ attempt, 1.0) * (0.5 + random)` seconds for the attempt's
drawn random value in `[0, 1)`, and the loop as a whole is bounded by the
lock's overall timeout of 30 seconds: given any nonnegative jitter draws and
fuel covering the timeout (each contended wait is at least 0.01 s), a
permanently contended lock leads the loop to exit with failure rather than
retry forever. -/
theorem lock_backoff_bounded (lockBusy : ℕ → Bool) (rand : ℕ → ℚ)
    (hrand : ∀ n, 0 ≤ rand n) (fuel : ℕ)
    (hfuel : defaultLockTimeout ≤ fuel * ((1 : ℚ)/100)) :
    (∀ res, acquireLock lockBusy rand defaultLockTimeout fuel = some res →
      ∀ k, k < res.sleeps.length →
        res.sleeps.getD k 0
          = min (1/100 * 2 ^ (k + 1)) 1 * (1/2 + rand (k + 1)))
    ∧ ((∀ n, lockBusy n = true) →
      ∃ s, acquireLock lockBusy rand defaultLockTimeout fuel
        = some (LockResult.timedOut s)) := by
  constructor
  · intro res h k hk
    have := acquireLockAux_sleeps lockBusy rand defaultLockTimeout fuel 0 0 res h k hk
    simpa [backoffWait] using this
  · intro hbusy
    exact acquireLockAux_times_out lockBusy rand defaultLockTimeout hbusy hrand
      fuel 0 0 (by simpa using hfuel)

/-- Witness for `lock_backoff_bounded`: with zero jitter, fuel 3001 and a
permanently contended lock, acquisition fails by timeout. -/
theorem lock_backoff_bounded_witness :
    ∃ s, acquireLock (fun _ => true) (fun _ => (0 : ℚ)) defaultLockTimeout 3001
      = some (LockResult.timedOut s) :=
  (lock_backoff_bounded (fun _ => true) (fun _ => (0 : ℚ)) (fun _ => le_refl 0)
      3001 (by norm_num [defaultLockTimeout])).2 (fun _ => rfl)

end Spec2Proof
